import Mathlib

/-!
Verification of the deuce-client HTTP protocol core (`deuceclient/client/deuce.py`)
against its natural-language specification.

The client operations are shallowly embedded as pure Lean functions.  Each
operation takes the entity state (a `Vault`), its explicit arguments, and the
HTTP response the transport would deliver (already split into status code,
body in its parsed form, the continuation header, and raw text), and returns

  * the Python outcome (`Except Err α`: `.ok` for a normal return, `.error`
    for a raised exception),
  * the entity state after the call (Python mutates objects in place; here
    the updated `Vault` is returned), and
  * the list of HTTP requests the call issued, in order.

Python dictionaries are embedded as insertion-ordered association lists with
unique keys: assigning to an existing key replaces the value in place,
assigning a fresh key appends.
-/

namespace Deuce

/-- Insertion-ordered dictionary assignment: replace in place when the key is
present, append otherwise (Python `d[k] = v`). -/
def alInsert {α : Type} (k : String) (v : α) : List (String × α) → List (String × α)
  | [] => [(k, v)]
  | (k₀, v₀) :: rest => if k₀ = k then (k, v) :: rest else (k₀, v₀) :: alInsert k v rest

/-- Keys of an embedded dictionary, in order (Python `d.keys()`). -/
def alKeys {α : Type} (l : List (String × α)) : List String := l.map Prod.fst

/-- Python `str()` applied to an optional identifier (`str(None) = "None"`). -/
def pyStr (o : Option String) : String := o.getD "None"

/-- Modelled from the spec: `api/block.py` is not under `src/`.  A Block
carries its scoping ids, a metadata block id and/or a storage id, and a
block type (spec section 3); only the identity fields consulted by the
embedded operations are carried. -/
structure Block where
  project_id : String
  vault_id : String
  block_id : Option String
  storage_id : Option String
  block_type : String
deriving Repr, DecidableEq

/-- The `Blocks` collection of `api/blocks.py`: an insertion-ordered mapping
from metadata block id to `Block`, scoped to one (project id, vault id) pair,
carrying the pagination `marker`. -/
structure Blocks where
  project_id : String
  vault_id : String
  entries : List (String × Block)
  marker : Option String
deriving Repr, DecidableEq

/-- Modelled from the spec: `api/storageblocks.py` is not under `src/`.  The
`StorageBlocks` collection mirrors `Blocks`, keyed by storage id
(spec section 3). -/
structure StorageBlocks where
  project_id : String
  vault_id : String
  entries : List (String × Block)
  marker : Option String
deriving Repr, DecidableEq

/-- Modelled from the spec: `api/afile.py` is not under `src/`.  A File
carries its service-assigned id, resource url, and the `offsets` mapping from
string-encoded byte offset to block id (spec section 3). -/
structure File where
  project_id : String
  vault_id : String
  file_id : String
  url : String
  offsets : List (String × String)
deriving Repr, DecidableEq

/-- Modelled from the spec: `api/files.py` is not under `src/`.  The Files
collection is a mapping from file id to `File` (spec section 3). -/
structure Files where
  entries : List (String × File)
deriving Repr, DecidableEq

/-- Modelled from the spec: `api/vault.py` is not under `src/`.  A Vault
carries its ids, a status string, the owned collections and the optional
statistics mapping (spec section 3). -/
structure Vault where
  project_id : String
  vault_id : String
  status : String
  blocks : Blocks
  storageblocks : StorageBlocks
  files : Files
  statistics : Option (List (String × String))
deriving Repr, DecidableEq

/-- Modelled from the spec: a freshly constructed Vault with empty
collections and status `unknown` (spec section 3: status is one of
unknown, valid, invalid, created, deleted). -/
def Vault.new (project_id vault_id : String) : Vault :=
  { project_id := project_id
    vault_id := vault_id
    status := "unknown"
    blocks := ⟨project_id, vault_id, [], none⟩
    storageblocks := ⟨project_id, vault_id, [], none⟩
    files := ⟨[]⟩
    statistics := none }

/-- An HTTP request as issued by the client: verb, uri, and for the one
structured-body operation (block assignment) the JSON array-of-pairs body in
parsed form. -/
structure Request where
  verb : String
  uri : String
  jsonBody : Option (List (String × String))
deriving Repr, DecidableEq

/-- A Python exception raised by a client operation.  `opFailed` renders the
source's uniform RuntimeError messages of shape
`<label> Error (<status>): <text>` structurally, carrying the pieces the
format string interpolates.  `finalizeFailed` renders `FinalizeFile`'s
RuntimeError, whose message interpolates only the JSON-decoded response
body. -/
inductive Err where
  | keyError (msg : String)
  | valueError (msg : String)
  | opFailed (label : String) (status : Nat) (text : String)
  | finalizeFailed (details : String)
deriving Repr, DecidableEq

/-- A response whose body the client reads as a JSON array of strings. -/
structure ListResponse where
  status : Nat
  text : String
  body : List String
  nextBatch : Option String
deriving Repr, DecidableEq

/-- A response whose body the client reads as a JSON array of
`[block_id, offset]` pairs. -/
structure PairsResponse where
  status : Nat
  text : String
  body : List (String × String)
  nextBatch : Option String
deriving Repr, DecidableEq

/-- A response whose body the client never parses. -/
structure StatusResponse where
  status : Nat
  text : String
deriving Repr, DecidableEq

/-- A response for `FinalizeFile`, which decodes the body as JSON on the
failure path; `json` is that decoded body. -/
structure FinalizeResponse where
  status : Nat
  text : String
  json : String
deriving Repr, DecidableEq

instance exceptDecEq {ε α : Type} [DecidableEq ε] [DecidableEq α] :
    DecidableEq (Except ε α) := fun a b =>
  match a, b with
  | .ok x, .ok y => if h : x = y then .isTrue (by rw [h]) else .isFalse (by simp [h])
  | .error x, .error y => if h : x = y then .isTrue (by rw [h]) else .isFalse (by simp [h])
  | .ok _, .error _ => .isFalse (by simp)
  | .error _, .ok _ => .isFalse (by simp)

/-- Outcome of one client operation: the Python return-or-raise, the entity
state after the call, and the requests issued. -/
structure OpResult (α : Type) where
  res : Except Err α
  vault : Vault
  reqs : List Request
deriving Repr, DecidableEq

/-- Modelled from the spec: `api/v1.py` (the Path Builder, spec section 4.2)
is not under `src/`.  Deterministic resource path for a single vault. -/
def get_vault_path (vault_id : String) : String := "/v1.0/vaults/" ++ vault_id

/-- Modelled from the spec: blocks collection path (spec section 4.2). -/
def get_blocks_path (vault_id : String) : String := get_vault_path vault_id ++ "/blocks"

/-- Modelled from the spec: single block path (spec section 4.2). -/
def get_block_path (vault_id block_id : String) : String :=
  get_blocks_path vault_id ++ "/" ++ block_id

/-- Modelled from the spec: files collection path (spec section 4.2). -/
def get_files_path (vault_id : String) : String := get_vault_path vault_id ++ "/files"

/-- Modelled from the spec: single file path (spec section 4.2). -/
def get_file_path (vault_id file_id : String) : String :=
  get_files_path vault_id ++ "/" ++ file_id

/-- Modelled from the spec: file-blocks (offset assignment) path
(spec section 4.2). -/
def get_fileblocks_path (vault_id file_id : String) : String :=
  get_file_path vault_id file_id ++ "/blocks"

/-- Modelled from the spec: storage-blocks collection path
(spec section 4.2). -/
def get_storage_blocks_path (vault_id : String) : String :=
  get_vault_path vault_id ++ "/storage/blocks"

/-- Split a character list at every occurrence of `sep`
(Python `s.split(sep)`). -/
def splitChar (sep : Char) : List Char → List (List Char)
  | [] => [[]]
  | c :: rest =>
    let r := splitChar sep rest
    if c = sep then [] :: r
    else match r with
      | [] => [[c]]
      | cs :: rs => (c :: cs) :: rs

/-- Query component of a URL as `urlparse` extracts it: the fragment is the
part after the first `#`, the query the part after the first `?` of what
precedes the fragment. -/
def urlQuery (url : String) : List Char :=
  ((url.data.takeWhile (fun c => c ≠ '#')).dropWhile (fun c => c ≠ '?')).drop 1

/-- One field of a query string as `parse_qsl` reads it with blank values
dropped: the name/value split happens at the first `=`; a field with no `=`
or an empty value yields nothing.  Percent-escapes are not modelled; the
continuation markers of this protocol are plain identifiers. -/
def qsField (field : List Char) : Option (String × String) :=
  let name := field.takeWhile (fun c => c ≠ '=')
  let rest := field.dropWhile (fun c => c ≠ '=')
  match rest with
  | [] => none
  | _ :: value => if value = [] then none else some (⟨name⟩, ⟨value⟩)

/-- All name/value pairs of a URL's query string, in order, as
`parse_qs(urlparse(url)[4])` collects them (splitting fields on `&` and on
`;`, as the stdlib of the source's era does). -/
def parseQs (url : String) : List (String × String) :=
  (((splitChar '&' (urlQuery url)).map (splitChar ';')).flatten).filterMap qsField

/-- The continuation marker extracted from an `x-next-batch` URL:
`parse_qs(...)['marker'][0]`, i.e. the first `marker` value; `none` renders
the `KeyError` the source raises when the URL carries no `marker`. -/
def qsMarker (url : String) : Option String := (parseQs url).lookup "marker"

/-- The marker/limit query-parameter suffix shared verbatim by the three
listing operations: when either parameter is present a `?` is appended, then
`marker=<m>` if present, then `sep` if both are present, then `limit=<l>` if
present. -/
def addMarkerLimit (url sep : String) (marker : Option String) (limit : Option Nat) : String :=
  if marker.isSome || limit.isSome then
    let url := url ++ "?"
    let url := match marker with
      | some m => (url ++ "marker=" ++ m) ++ (if limit.isSome then sep else "")
      | none => url
    match limit with
    | some l => url ++ "limit=" ++ toString l
    | none => url
  else url

/-- `DeuceClient.CreateVault`: PUT the vault path; on 201 build a fresh Vault
and set its status to `created`; any other status raises the uniform
failure. -/
def CreateVault (project_id vault_name : String) (resp : StatusResponse) :
    Except Err Vault × List Request :=
  let req : Request := ⟨"PUT", get_vault_path vault_name, none⟩
  if resp.status = 201 then
    (.ok { Vault.new project_id vault_name with status := "created" }, [req])
  else
    (.error (.opFailed "Failed to create Vault. " resp.status resp.text), [req])

/-- `DeuceClient.DeleteVault`: DELETE the vault path; on 204 set the vault
status to `deleted` and return True; otherwise raise. -/
def DeleteVault (vault : Vault) (resp : StatusResponse) : OpResult Bool :=
  let req : Request := ⟨"DELETE", get_vault_path vault.vault_id, none⟩
  if resp.status = 204 then
    ⟨.ok true, { vault with status := "deleted" }, [req]⟩
  else
    ⟨.error (.opFailed "Failed to delete Vault. " resp.status resp.text), vault, [req]⟩

/-- `DeuceClient.VaultExists`: accepts a Vault instance or a bare vault id
string; HEAD the vault path; 204 returns True (writing status `valid` when
given a Vault instance), 404 returns False (writing `invalid` likewise), and
anything else raises. -/
def VaultExists (target : Vault ⊕ String) (resp : StatusResponse) :
    Except Err Bool × (Vault ⊕ String) × List Request :=
  let vault_id := match target with
    | .inl v => v.vault_id
    | .inr s => s
  let req : Request := ⟨"HEAD", get_vault_path vault_id, none⟩
  if resp.status = 204 then
    (.ok true,
     (match target with
      | .inl v => .inl { v with status := "valid" }
      | .inr s => .inr s), [req])
  else if resp.status = 404 then
    (.ok false,
     (match target with
      | .inl v => .inl { v with status := "invalid" }
      | .inr s => .inr s), [req])
  else
    (.error (.opFailed "Failed to determine if Vault exists. " resp.status resp.text),
     target, [req])

/-- `DeuceClient.GetBlockList`: GET the blocks path with the optional
marker/limit parameters (comma-separated); on 200 upsert a `Block` per id of
the body into `vault.blocks`, then set the collection marker from the
`x-next-batch` header (clearing it to None when the header is absent;
raising `KeyError` — after the upserts — when the header URL has no
`marker` parameter), returning the listed ids. -/
def GetBlockList (vault : Vault) (marker : Option String) (limit : Option Nat)
    (resp : ListResponse) : OpResult (List String) :=
  let url := addMarkerLimit (get_blocks_path vault.vault_id) "," marker limit
  let req : Request := ⟨"GET", url, none⟩
  if resp.status = 200 then
    let entries := resp.body.foldl
      (fun acc bid =>
        alInsert bid ⟨vault.project_id, vault.vault_id, some bid, none, "metadata"⟩ acc)
      vault.blocks.entries
    match resp.nextBatch with
    | some nb =>
      match qsMarker nb with
      | some m =>
        ⟨.ok resp.body,
         { vault with blocks := { vault.blocks with entries := entries, marker := some m } },
         [req]⟩
      | none =>
        ⟨.error (.keyError "marker"),
         { vault with blocks := { vault.blocks with entries := entries } }, [req]⟩
    | none =>
      ⟨.ok resp.body,
       { vault with blocks := { vault.blocks with entries := entries, marker := none } },
       [req]⟩
  else
    ⟨.error (.opFailed "Failed to get Block list for Vault . " resp.status resp.text),
     vault, [req]⟩

/-- `DeuceClient.DeleteBlock`: DELETE the block path; on 204 return True
without touching the local model; otherwise raise (the source's message label
reads `Failed to delete Vault. `, kept verbatim). -/
def DeleteBlock (vault : Vault) (block : Block) (resp : StatusResponse) : OpResult Bool :=
  let req : Request := ⟨"DELETE", get_block_path vault.vault_id (pyStr block.block_id), none⟩
  if resp.status = 204 then
    ⟨.ok true, vault, [req]⟩
  else
    ⟨.error (.opFailed "Failed to delete Vault. " resp.status resp.text), vault, [req]⟩

/-- The per-item body of `DeuceClient.DeleteBlocks`: look the id up in
`vault.blocks` and delete it via `DeleteBlock`; any exception (a missing key
as well as a non-204 response) is caught and recorded as `(id, False)`.
`resp` maps each block id to the response its DELETE would receive. -/
def do_delete_block (vault : Vault) (resp : String → StatusResponse) (block_id : String) :
    (String × Bool) × List Request :=
  match vault.blocks.entries.lookup block_id with
  | none => ((block_id, false), [])
  | some block =>
    let r := DeleteBlock vault block (resp block_id)
    match r.res with
    | .ok b => ((block_id, b), r.reqs)
    | .error _ => ((block_id, false), r.reqs)

/-- `DeuceClient.DeleteBlocks`: attempt each id of the input in order,
collecting one `(id, succeeded)` pair per id. -/
def DeleteBlocks (vault : Vault) (block_ids : List String) (resp : String → StatusResponse) :
    OpResult (List (String × Bool)) :=
  let items := block_ids.map (do_delete_block vault resp)
  ⟨.ok (items.map Prod.fst), vault, (items.map Prod.snd).flatten⟩

/-- `DeuceClient.DeleteFile`: DELETE the file path; on 204 return True
without touching the local model; otherwise raise. -/
def DeleteFile (vault : Vault) (file_id : String) (resp : StatusResponse) : OpResult Bool :=
  let req : Request := ⟨"DELETE", get_file_path vault.vault_id file_id, none⟩
  if resp.status = 204 then
    ⟨.ok true, vault, [req]⟩
  else
    ⟨.error (.opFailed "Failed to Delete File. " resp.status resp.text), vault, [req]⟩

/-- `DeuceClient.FinalizeFile`: KeyError when the file id is not in the
vault's Files; POST the file path; 200 and 204 both return True; any other
status raises a RuntimeError whose message interpolates only the
JSON-decoded response body. -/
def FinalizeFile (vault : Vault) (file_id : String) (resp : FinalizeResponse) : OpResult Bool :=
  match vault.files.entries.lookup file_id with
  | none => ⟨.error (.keyError "file_id must specify a file in the provided Vault"), vault, []⟩
  | some _ =>
    let req : Request := ⟨"POST", get_file_path vault.vault_id file_id, none⟩
    if resp.status = 200 ∨ resp.status = 204 then
      ⟨.ok true, vault, [req]⟩
    else
      ⟨.error (.finalizeFailed resp.json), vault, [req]⟩

/-- The explicit-list validation loop of `AssignBlocksToFile`: for each
`(block_id, offset)` pair in order, the offset must be a key of the file's
local offsets map (else KeyError) and the block id recorded there must equal
the supplied one (else ValueError). -/
def checkPairs (offsets : List (String × String)) : List (String × String) → Option Err
  | [] => none
  | (block_id, offset) :: rest =>
    match offsets.lookup offset with
    | none => some (.keyError ("block offset " ++ offset ++ " must be assigned in the File"))
    | some bid =>
      if bid ≠ block_id then
        some (.valueError ("specified offset " ++ offset ++ " must match the block " ++ block_id))
      else checkPairs offsets rest

/-- `DeuceClient.AssignBlocksToFile`: after the local precondition checks
(file present; explicit list non-empty and consistent with the local offsets
map, or — with no explicit list — local offsets non-empty), POST the
file-blocks path with the `(block_id, offset)` pairs as the structured JSON
body; on 200 return the block ids of the response body (the blocks still to
upload); otherwise raise. -/
def AssignBlocksToFile (vault : Vault) (file_id : String)
    (block_ids : Option (List (String × String))) (resp : ListResponse) :
    OpResult (List String) :=
  match vault.files.entries.lookup file_id with
  | none => ⟨.error (.keyError "file_id must specify a file in the provided Vault"), vault, []⟩
  | some file =>
    let check : Option Err :=
      match block_ids with
      | some bids =>
        if bids.length = 0 then some (.valueError "block_ids must be iterable")
        else checkPairs file.offsets bids
      | none =>
        if file.offsets.length = 0 then some (.valueError "File must have offsets specified")
        else none
    match check with
    | some e => ⟨.error e, vault, []⟩
    | none =>
      let data := match block_ids with
        | some bids => bids
        | none => file.offsets.map (fun p => (p.2, p.1))
      let req : Request := ⟨"POST", get_fileblocks_path vault.vault_id file_id, some data⟩
      if resp.status = 200 then
        ⟨.ok resp.body, vault, [req]⟩
      else
        ⟨.error (.opFailed "Failed to Assign Blocks to the File. " resp.status resp.text),
         vault, [req]⟩

/-- `DeuceClient.GetFileBlockList`: KeyError when the file id is not in the
vault's Files; GET the file-blocks path with the optional marker/limit
parameters (comma-separated); on 200 store each `(block_id, offset)` pair of
the body into the file's offsets map, then return the listed block ids with
the next marker parsed from the `x-next-batch` header (None when the header
is absent; KeyError — after the offset upserts — when the header URL has no
`marker` parameter). -/
def GetFileBlockList (vault : Vault) (file_id : String) (marker : Option String)
    (limit : Option Nat) (resp : PairsResponse) : OpResult (List String × Option String) :=
  match vault.files.entries.lookup file_id with
  | none => ⟨.error (.keyError "file_id must specify a file in the provided Vault."), vault, []⟩
  | some file =>
    let url := addMarkerLimit (get_fileblocks_path vault.vault_id file_id) "," marker limit
    let req : Request := ⟨"GET", url, none⟩
    if resp.status = 200 then
      let file' :=
        { file with offsets := resp.body.foldl (fun acc p => alInsert p.2 p.1 acc) file.offsets }
      let vault' := { vault with files := ⟨alInsert file_id file' vault.files.entries⟩ }
      match resp.nextBatch with
      | some nb =>
        match qsMarker nb with
        | some m => ⟨.ok (resp.body.map Prod.fst, some m), vault', [req]⟩
        | none => ⟨.error (.keyError "marker"), vault', [req]⟩
      | none => ⟨.ok (resp.body.map Prod.fst, none), vault', [req]⟩
    else
      ⟨.error (.opFailed "Failed to get Block list for File . " resp.status resp.text),
       vault, [req]⟩

/-- `DeuceClient.GetBlockStorageList`: GET the storage-blocks path with the
optional marker/limit parameters (ampersand-separated); on 200 upsert a
storage-typed `Block` per storage id of the body into `vault.storageblocks`,
then set that collection's marker from the `x-next-batch` header (clearing
it to None when absent; KeyError — after the upserts — when the header URL
has no `marker` parameter), returning the listed storage ids. -/
def GetBlockStorageList (vault : Vault) (marker : Option String) (limit : Option Nat)
    (resp : ListResponse) : OpResult (List String) :=
  let url := addMarkerLimit (get_storage_blocks_path vault.vault_id) "&" marker limit
  let req : Request := ⟨"GET", url, none⟩
  if resp.status = 200 then
    let entries := resp.body.foldl
      (fun acc sid =>
        alInsert sid ⟨vault.project_id, vault.vault_id, none, some sid, "storage"⟩ acc)
      vault.storageblocks.entries
    match resp.nextBatch with
    | some nb =>
      match qsMarker nb with
      | some m =>
        ⟨.ok resp.body,
         { vault with storageblocks :=
            { vault.storageblocks with entries := entries, marker := some m } },
         [req]⟩
      | none =>
        ⟨.error (.keyError "marker"),
         { vault with storageblocks := { vault.storageblocks with entries := entries } },
         [req]⟩
    | none =>
      ⟨.ok resp.body,
       { vault with storageblocks :=
          { vault.storageblocks with entries := entries, marker := none } },
       [req]⟩
  else
    ⟨.error (.opFailed "Failed to get Block Storage list for Vault . " resp.status resp.text),
     vault, [req]⟩

/-! ## Helper lemmas -/

theorem checkPairs_append_ok (offsets pre rest : List (String × String))
    (h : ∀ p ∈ pre, offsets.lookup p.2 = some p.1) :
    checkPairs offsets (pre ++ rest) = checkPairs offsets rest := by
  induction pre with
  | nil => rfl
  | cons p pre ih =>
    obtain ⟨b, o⟩ := p
    have hp : offsets.lookup o = some b := h (b, o) (by simp)
    simpa [checkPairs, hp] using ih (fun q hq => h q (by simp [hq]))

/-- A vault with one file `f1` whose local offsets map holds blocks `b1` at
offset `0` and `b2` at offset `100`, used to instantiate witnesses. -/
def sampleVault : Vault :=
  { Vault.new "p1" "v1" with
    blocks := ⟨"p1", "v1", [("b1", ⟨"p1", "v1", some "b1", none, "metadata"⟩)], none⟩
    files := ⟨[("f1", ⟨"p1", "v1", "f1", "/u", [("0", "b1"), ("100", "b2")]⟩)]⟩ }

/-! ## Claim theorems -/

/-- C1: with no explicit block id list, `AssignBlocksToFile` on a file that
is present in the vault and has a non-empty local offsets map issues exactly
one POST to the file-blocks path whose structured JSON body is exactly the
pairs of the local offsets map (block id paired with its offset, in map
order), and on a 200 response returns exactly the block ids of the response
body. -/
theorem assign_default_submits_local_offsets
    (vault : Vault) (file_id : String) (file : File) (resp : ListResponse)
    (hf : vault.files.entries.lookup file_id = some file)
    (hne : file.offsets ≠ []) :
    (AssignBlocksToFile vault file_id none resp).reqs =
      [⟨"POST", get_fileblocks_path vault.vault_id file_id,
        some (file.offsets.map (fun p => (p.2, p.1)))⟩] ∧
    (resp.status = 200 →
      (AssignBlocksToFile vault file_id none resp).res = .ok resp.body) := by
  have hlen : ¬ file.offsets.length = 0 := by
    simpa [List.length_eq_zero] using hne
  constructor
  · by_cases hs : resp.status = 200 <;>
      simp [AssignBlocksToFile, hf, hlen, hs]
  · intro hs
    simp [AssignBlocksToFile, hf, hlen, hs]

theorem assign_default_submits_local_offsets_witness :
    (AssignBlocksToFile sampleVault "f1" none ⟨200, "", ["b2"], none⟩).reqs =
      [⟨"POST", get_fileblocks_path "v1" "f1", some [("b1", "0"), ("b2", "100")]⟩] ∧
    (AssignBlocksToFile sampleVault "f1" none ⟨200, "", ["b2"], none⟩).res = .ok ["b2"] := by
  have h := assign_default_submits_local_offsets sampleVault "f1"
    ⟨"p1", "v1", "f1", "/u", [("0", "b1"), ("100", "b2")]⟩ ⟨200, "", ["b2"], none⟩
    (by decide) (by decide)
  exact ⟨h.1, h.2 rfl⟩

/-- C2: each local precondition failure of `AssignBlocksToFile` — file id not
in the vault's Files (KeyError), explicit empty list (ValueError), a supplied
offset absent from the file's local offsets map (KeyError, at the first
offending pair), or a supplied block id differing from the one locally
recorded at that offset (ValueError, likewise) — is raised with no HTTP
request issued and the entity model unchanged. -/
theorem assign_precondition_failures
    (vault : Vault) (file_id : String) (resp : ListResponse) :
    (vault.files.entries.lookup file_id = none →
      ∀ block_ids, AssignBlocksToFile vault file_id block_ids resp =
        ⟨.error (.keyError "file_id must specify a file in the provided Vault"), vault, []⟩) ∧
    (∀ file, vault.files.entries.lookup file_id = some file →
      AssignBlocksToFile vault file_id (some []) resp =
        ⟨.error (.valueError "block_ids must be iterable"), vault, []⟩) ∧
    (∀ file pre bid off post, vault.files.entries.lookup file_id = some file →
      (∀ p ∈ pre, file.offsets.lookup p.2 = some p.1) →
      file.offsets.lookup off = none →
      AssignBlocksToFile vault file_id (some (pre ++ (bid, off) :: post)) resp =
        ⟨.error (.keyError ("block offset " ++ off ++ " must be assigned in the File")),
         vault, []⟩) ∧
    (∀ file pre bid bid' off post, vault.files.entries.lookup file_id = some file →
      (∀ p ∈ pre, file.offsets.lookup p.2 = some p.1) →
      file.offsets.lookup off = some bid' → bid' ≠ bid →
      AssignBlocksToFile vault file_id (some (pre ++ (bid, off) :: post)) resp =
        ⟨.error (.valueError ("specified offset " ++ off ++ " must match the block " ++ bid)),
         vault, []⟩) := by
  refine ⟨fun hmiss block_ids => ?_, fun file hf => ?_,
          fun file pre bid off post hf hpre hoff => ?_,
          fun file pre bid bid' off post hf hpre hoff hne => ?_⟩
  · simp [AssignBlocksToFile, hmiss]
  · simp [AssignBlocksToFile, hf]
  · have hc : checkPairs file.offsets (pre ++ (bid, off) :: post) =
        some (.keyError ("block offset " ++ off ++ " must be assigned in the File")) := by
      rw [checkPairs_append_ok file.offsets pre _ hpre]
      simp [checkPairs, hoff]
    simp [AssignBlocksToFile, hf, hc]
  · have hc : checkPairs file.offsets (pre ++ (bid, off) :: post) =
        some (.valueError ("specified offset " ++ off ++ " must match the block " ++ bid)) := by
      rw [checkPairs_append_ok file.offsets pre _ hpre]
      simp [checkPairs, hoff, hne]
    simp [AssignBlocksToFile, hf, hc]

theorem assign_precondition_failures_witness :
    (AssignBlocksToFile sampleVault "nope" none ⟨200, "", [], none⟩ =
      ⟨.error (.keyError "file_id must specify a file in the provided Vault"),
       sampleVault, []⟩) ∧
    (AssignBlocksToFile sampleVault "f1" (some []) ⟨200, "", [], none⟩ =
      ⟨.error (.valueError "block_ids must be iterable"), sampleVault, []⟩) ∧
    (AssignBlocksToFile sampleVault "f1" (some [("b1", "0"), ("b7", "7")]) ⟨200, "", [], none⟩ =
      ⟨.error (.keyError "block offset 7 must be assigned in the File"), sampleVault, []⟩) ∧
    (AssignBlocksToFile sampleVault "f1" (some [("b1", "0"), ("b7", "100")]) ⟨200, "", [], none⟩ =
      ⟨.error (.valueError "specified offset 100 must match the block b7"), sampleVault, []⟩) := by
  have h := assign_precondition_failures sampleVault "nope" ⟨200, "", [], none⟩
  have h' := assign_precondition_failures sampleVault "f1" ⟨200, "", [], none⟩
  refine ⟨h.1 (by decide) none,
    h'.2.1 ⟨"p1", "v1", "f1", "/u", [("0", "b1"), ("100", "b2")]⟩ (by decide), ?_, ?_⟩
  · exact h'.2.2.1 ⟨"p1", "v1", "f1", "/u", [("0", "b1"), ("100", "b2")]⟩
      [("b1", "0")] "b7" "7" [] (by decide) (by decide) (by decide)
  · exact h'.2.2.2 ⟨"p1", "v1", "f1", "/u", [("0", "b1"), ("100", "b2")]⟩
      [("b1", "0")] "b7" "b2" "100" [] (by decide) (by decide) (by decide) (by decide)

/-- C3: on every 200 listing response, when the `x-next-batch` continuation
header is present and its URL carries a `marker` query parameter, the owning
collection's marker is set to that value (respectively, for the file-block
listing, that value is returned alongside the block ids); when the header is
absent the marker is cleared to None (respectively None is returned). -/
theorem listing_marker_protocol
    (vault : Vault) (marker : Option String) (limit : Option Nat) :
    (∀ resp : ListResponse, resp.status = 200 →
      (∀ nb m, resp.nextBatch = some nb → qsMarker nb = some m →
        (GetBlockList vault marker limit resp).vault.blocks.marker = some m) ∧
      (resp.nextBatch = none →
        (GetBlockList vault marker limit resp).vault.blocks.marker = none)) ∧
    (∀ resp : ListResponse, resp.status = 200 →
      (∀ nb m, resp.nextBatch = some nb → qsMarker nb = some m →
        (GetBlockStorageList vault marker limit resp).vault.storageblocks.marker = some m) ∧
      (resp.nextBatch = none →
        (GetBlockStorageList vault marker limit resp).vault.storageblocks.marker = none)) ∧
    (∀ file_id file (resp : PairsResponse),
      vault.files.entries.lookup file_id = some file → resp.status = 200 →
      (∀ nb m, resp.nextBatch = some nb → qsMarker nb = some m →
        (GetFileBlockList vault file_id marker limit resp).res =
          .ok (resp.body.map Prod.fst, some m)) ∧
      (resp.nextBatch = none →
        (GetFileBlockList vault file_id marker limit resp).res =
          .ok (resp.body.map Prod.fst, none))) := by
  refine ⟨fun resp hs => ⟨fun nb m hnb hm => ?_, fun hnb => ?_⟩,
          fun resp hs => ⟨fun nb m hnb hm => ?_, fun hnb => ?_⟩,
          fun file_id file resp hf hs => ⟨fun nb m hnb hm => ?_, fun hnb => ?_⟩⟩ <;>
    simp [GetBlockList, GetBlockStorageList, GetFileBlockList, hs, hnb, *]

theorem listing_marker_protocol_witness :
    (GetBlockList sampleVault none none
      ⟨200, "", ["b1"], some "http://h/v1.0/vaults/v1/blocks?marker=b9&limit=4"⟩).vault.blocks.marker
      = some "b9" ∧
    (GetBlockList sampleVault none none ⟨200, "", ["b1"], none⟩).vault.blocks.marker = none ∧
    (GetBlockStorageList sampleVault none none
      ⟨200, "", ["s1"], some "http://h/p?marker=s9"⟩).vault.storageblocks.marker = some "s9" ∧
    (GetFileBlockList sampleVault "f1" none none
      ⟨200, "", [("b1", "0")], some "http://h/p?marker=b5"⟩).res = .ok (["b1"], some "b5") ∧
    (GetFileBlockList sampleVault "f1" none none ⟨200, "", [("b1", "0")], none⟩).res =
      .ok (["b1"], none) := by
  have h := listing_marker_protocol sampleVault none none
  refine ⟨(h.1 _ rfl).1 _ _ rfl (by decide), (h.1 _ rfl).2 rfl,
          (h.2.1 _ rfl).1 _ _ rfl (by decide), ?_, ?_⟩
  · exact (h.2.2 "f1" ⟨"p1", "v1", "f1", "/u", [("0", "b1"), ("100", "b2")]⟩ _
      (by decide) rfl).1 _ _ rfl (by decide)
  · exact (h.2.2 "f1" ⟨"p1", "v1", "f1", "/u", [("0", "b1"), ("100", "b2")]⟩ _
      (by decide) rfl).2 rfl

/-- An exception carries the response's status code and body text when it is
the uniform operation failure interpolating exactly those pieces. -/
def carriesStatusText (e : Err) (status : Nat) (text : String) : Prop :=
  ∃ label, e = Err.opFailed label status text

/-- C4 counterexample: `FinalizeFile` on a non-success response raises a
failure that interpolates only the JSON-decoded response body — it carries
neither the status code nor the response body text. -/
theorem finalize_failure_lacks_status_and_text :
    (FinalizeFile sampleVault "f1" ⟨500, "boom", "server error details"⟩).res =
      .error (.finalizeFailed "server error details") ∧
    ¬ carriesStatusText (.finalizeFailed "server error details") 500 "boom" := by
  constructor
  · decide
  · rintro ⟨label, h⟩
    exact Err.noConfusion h

/-- C4 (amended): every embedded HTTP operation except `FinalizeFile` raises,
on a response whose status is not that operation's success code, the uniform
failure carrying the response's status code and body text; `FinalizeFile`
instead raises a failure carrying only the JSON-decoded response body. -/
theorem nonsuccess_uniform_failures
    (vault : Vault) (block : Block) (file_id : String) (file : File)
    (marker : Option String) (limit : Option Nat) :
    (∀ p n (r : StatusResponse), r.status ≠ 201 →
      (CreateVault p n r).1 = .error (.opFailed "Failed to create Vault. " r.status r.text)) ∧
    (∀ r : StatusResponse, r.status ≠ 204 →
      (DeleteVault vault r).res = .error (.opFailed "Failed to delete Vault. " r.status r.text)) ∧
    (∀ r : StatusResponse, r.status ≠ 204 → r.status ≠ 404 →
      (VaultExists (.inl vault) r).1 =
        .error (.opFailed "Failed to determine if Vault exists. " r.status r.text)) ∧
    (∀ r : ListResponse, r.status ≠ 200 →
      (GetBlockList vault marker limit r).res =
        .error (.opFailed "Failed to get Block list for Vault . " r.status r.text)) ∧
    (∀ r : StatusResponse, r.status ≠ 204 →
      (DeleteBlock vault block r).res =
        .error (.opFailed "Failed to delete Vault. " r.status r.text)) ∧
    (∀ r : StatusResponse, r.status ≠ 204 →
      (DeleteFile vault file_id r).res =
        .error (.opFailed "Failed to Delete File. " r.status r.text)) ∧
    (vault.files.entries.lookup file_id = some file → file.offsets ≠ [] →
      ∀ r : ListResponse, r.status ≠ 200 →
        (AssignBlocksToFile vault file_id none r).res =
          .error (.opFailed "Failed to Assign Blocks to the File. " r.status r.text)) ∧
    (vault.files.entries.lookup file_id = some file →
      ∀ r : PairsResponse, r.status ≠ 200 →
        (GetFileBlockList vault file_id marker limit r).res =
          .error (.opFailed "Failed to get Block list for File . " r.status r.text)) ∧
    (∀ r : ListResponse, r.status ≠ 200 →
      (GetBlockStorageList vault marker limit r).res =
        .error (.opFailed "Failed to get Block Storage list for Vault . " r.status r.text)) ∧
    (vault.files.entries.lookup file_id = some file →
      ∀ r : FinalizeResponse, r.status ≠ 200 → r.status ≠ 204 →
        (FinalizeFile vault file_id r).res = .error (.finalizeFailed r.json)) := by
  refine ⟨fun p n r h => ?_, fun r h => ?_, fun r h h' => ?_, fun r h => ?_, fun r h => ?_,
          fun r h => ?_, fun hf hne r h => ?_, fun hf r h => ?_, fun r h => ?_,
          fun hf r h h' => ?_⟩
  · simp [CreateVault, h]
  · simp [DeleteVault, h]
  · simp [VaultExists, h, h']
  · simp [GetBlockList, h]
  · simp [DeleteBlock, h]
  · simp [DeleteFile, h]
  · have hlen : ¬ file.offsets.length = 0 := by
      simpa [List.length_eq_zero] using hne
    simp [AssignBlocksToFile, hf, hlen, h]
  · simp [GetFileBlockList, hf, h]
  · simp [GetBlockStorageList, h]
  · simp [FinalizeFile, hf, h, h']

theorem nonsuccess_uniform_failures_witness :
    (CreateVault "p1" "v1" ⟨500, "oops"⟩).1 =
      .error (.opFailed "Failed to create Vault. " 500 "oops") ∧
    (DeleteVault sampleVault ⟨500, "oops"⟩).res =
      .error (.opFailed "Failed to delete Vault. " 500 "oops") ∧
    (VaultExists (.inl sampleVault) ⟨500, "oops"⟩).1 =
      .error (.opFailed "Failed to determine if Vault exists. " 500 "oops") ∧
    (GetBlockList sampleVault none none ⟨500, "oops", [], none⟩).res =
      .error (.opFailed "Failed to get Block list for Vault . " 500 "oops") ∧
    (DeleteBlock sampleVault ⟨"p1", "v1", some "b1", none, "metadata"⟩ ⟨500, "oops"⟩).res =
      .error (.opFailed "Failed to delete Vault. " 500 "oops") ∧
    (DeleteFile sampleVault "f1" ⟨500, "oops"⟩).res =
      .error (.opFailed "Failed to Delete File. " 500 "oops") ∧
    (AssignBlocksToFile sampleVault "f1" none ⟨500, "oops", [], none⟩).res =
      .error (.opFailed "Failed to Assign Blocks to the File. " 500 "oops") ∧
    (GetFileBlockList sampleVault "f1" none none ⟨500, "oops", [], none⟩).res =
      .error (.opFailed "Failed to get Block list for File . " 500 "oops") ∧
    (GetBlockStorageList sampleVault none none ⟨500, "oops", [], none⟩).res =
      .error (.opFailed "Failed to get Block Storage list for Vault . " 500 "oops") ∧
    (FinalizeFile sampleVault "f1" ⟨500, "oops", "details"⟩).res =
      .error (.finalizeFailed "details") := by
  have h := nonsuccess_uniform_failures sampleVault
    ⟨"p1", "v1", some "b1", none, "metadata"⟩ "f1"
    ⟨"p1", "v1", "f1", "/u", [("0", "b1"), ("100", "b2")]⟩ none none
  exact ⟨h.1 "p1" "v1" _ (by decide), h.2.1 _ (by decide), h.2.2.1 _ (by decide) (by decide),
         h.2.2.2.1 _ (by decide), h.2.2.2.2.1 _ (by decide), h.2.2.2.2.2.1 _ (by decide),
         h.2.2.2.2.2.2.1 (by decide) (by decide) _ (by decide),
         h.2.2.2.2.2.2.2.1 (by decide) _ (by decide),
         h.2.2.2.2.2.2.2.2.1 _ (by decide),
         h.2.2.2.2.2.2.2.2.2 (by decide) _ (by decide) (by decide)⟩

/-- C5: the Vault status state machine — create success (201) yields a vault
whose status is `created`; an existence check on a Vault instance sets status
`valid` and returns true on 204, sets `invalid` and returns false on 404;
delete success (204) sets status `deleted`. -/
theorem vault_status_state_machine (p n : String) (vault : Vault) :
    (∀ r : StatusResponse, r.status = 201 →
      (CreateVault p n r).1 = .ok { Vault.new p n with status := "created" }) ∧
    (∀ r : StatusResponse, r.status = 204 →
      (VaultExists (.inl vault) r).1 = .ok true ∧
      (VaultExists (.inl vault) r).2.1 = .inl { vault with status := "valid" }) ∧
    (∀ r : StatusResponse, r.status = 404 →
      (VaultExists (.inl vault) r).1 = .ok false ∧
      (VaultExists (.inl vault) r).2.1 = .inl { vault with status := "invalid" }) ∧
    (∀ r : StatusResponse, r.status = 204 →
      (DeleteVault vault r).res = .ok true ∧
      (DeleteVault vault r).vault.status = "deleted") := by
  refine ⟨fun r h => ?_, fun r h => ?_, fun r h => ?_, fun r h => ?_⟩
  · simp [CreateVault, h]
  · simp [VaultExists, h]
  · simp [VaultExists, h]
  · simp [DeleteVault, h]

theorem vault_status_state_machine_witness :
    (CreateVault "p1" "v1" ⟨201, ""⟩).1 = .ok { Vault.new "p1" "v1" with status := "created" } ∧
    (VaultExists (.inl sampleVault) ⟨204, ""⟩).1 = .ok true ∧
    (VaultExists (.inl sampleVault) ⟨204, ""⟩).2.1 =
      .inl { sampleVault with status := "valid" } ∧
    (VaultExists (.inl sampleVault) ⟨404, ""⟩).1 = .ok false ∧
    (VaultExists (.inl sampleVault) ⟨404, ""⟩).2.1 =
      .inl { sampleVault with status := "invalid" } ∧
    (DeleteVault sampleVault ⟨204, ""⟩).res = .ok true ∧
    (DeleteVault sampleVault ⟨204, ""⟩).vault.status = "deleted" := by
  have h := vault_status_state_machine "p1" "v1" sampleVault
  have h2 := h.2.1 ⟨204, ""⟩ rfl
  have h3 := h.2.2.1 ⟨404, ""⟩ rfl
  have h4 := h.2.2.2 ⟨204, ""⟩ rfl
  exact ⟨h.1 ⟨201, ""⟩ rfl, h2.1, h2.2, h3.1, h3.2, h4.1, h4.2⟩

theorem getBlockList_reqs (vault : Vault) (marker : Option String) (limit : Option Nat)
    (resp : ListResponse) :
    (GetBlockList vault marker limit resp).reqs =
      [⟨"GET", addMarkerLimit (get_blocks_path vault.vault_id) "," marker limit, none⟩] := by
  unfold GetBlockList
  split
  · split
    · split <;> rfl
    · rfl
  · rfl

theorem getFileBlockList_reqs (vault : Vault) (file_id : String) (file : File)
    (hf : vault.files.entries.lookup file_id = some file)
    (marker : Option String) (limit : Option Nat) (resp : PairsResponse) :
    (GetFileBlockList vault file_id marker limit resp).reqs =
      [⟨"GET", addMarkerLimit (get_fileblocks_path vault.vault_id file_id) "," marker limit,
        none⟩] := by
  simp only [GetFileBlockList, hf]
  split
  · split
    · split <;> rfl
    · rfl
  · rfl

theorem getBlockStorageList_reqs (vault : Vault) (marker : Option String) (limit : Option Nat)
    (resp : ListResponse) :
    (GetBlockStorageList vault marker limit resp).reqs =
      [⟨"GET", addMarkerLimit (get_storage_blocks_path vault.vault_id) "&" marker limit,
        none⟩] := by
  unfold GetBlockStorageList
  split
  · split
    · split <;> rfl
    · rfl
  · rfl

theorem addMarkerLimit_both (u sep m : String) (l : Nat) :
    addMarkerLimit u sep (some m) (some l) =
      u ++ "?" ++ "marker=" ++ m ++ sep ++ "limit=" ++ toString l := by
  simp [addMarkerLimit, String.append_assoc]

theorem addMarkerLimit_marker_only (u sep m : String) :
    addMarkerLimit u sep (some m) none = u ++ "?" ++ "marker=" ++ m := by
  simp [addMarkerLimit, String.append_assoc]

theorem addMarkerLimit_limit_only (u sep : String) (l : Nat) :
    addMarkerLimit u sep none (some l) = u ++ "?" ++ "limit=" ++ toString l := by
  simp [addMarkerLimit, String.append_assoc]

/-- C6: the listing request URLs append the marker parameter first and the
limit parameter second; when both are present the block listing and
file-block listing separate them with a comma, the storage-block listing
with an ampersand. -/
theorem listing_url_separators
    (vault : Vault) (file_id : String) (file : File)
    (hf : vault.files.entries.lookup file_id = some file)
    (m : String) (l : Nat) (resp : ListResponse) (presp : PairsResponse) :
    (GetBlockList vault (some m) (some l) resp).reqs =
      [⟨"GET", get_blocks_path vault.vault_id ++ "?" ++ "marker=" ++ m ++ "," ++
        "limit=" ++ toString l, none⟩] ∧
    (GetFileBlockList vault file_id (some m) (some l) presp).reqs =
      [⟨"GET", get_fileblocks_path vault.vault_id file_id ++ "?" ++ "marker=" ++ m ++ "," ++
        "limit=" ++ toString l, none⟩] ∧
    (GetBlockStorageList vault (some m) (some l) resp).reqs =
      [⟨"GET", get_storage_blocks_path vault.vault_id ++ "?" ++ "marker=" ++ m ++ "&" ++
        "limit=" ++ toString l, none⟩] ∧
    (GetBlockList vault (some m) none resp).reqs =
      [⟨"GET", get_blocks_path vault.vault_id ++ "?" ++ "marker=" ++ m, none⟩] ∧
    (GetBlockList vault none (some l) resp).reqs =
      [⟨"GET", get_blocks_path vault.vault_id ++ "?" ++ "limit=" ++ toString l, none⟩] := by
  refine ⟨?_, ?_, ?_, ?_, ?_⟩
  · rw [getBlockList_reqs, addMarkerLimit_both]
  · rw [getFileBlockList_reqs vault file_id file hf, addMarkerLimit_both]
  · rw [getBlockStorageList_reqs, addMarkerLimit_both]
  · rw [getBlockList_reqs, addMarkerLimit_marker_only]
  · rw [getBlockList_reqs, addMarkerLimit_limit_only]

theorem listing_url_separators_witness :
    (GetBlockList sampleVault (some "m0") (some 7) ⟨200, "", [], none⟩).reqs =
      [⟨"GET", "/v1.0/vaults/v1/blocks?marker=m0,limit=7", none⟩] ∧
    (GetFileBlockList sampleVault "f1" (some "m0") (some 7) ⟨200, "", [], none⟩).reqs =
      [⟨"GET", "/v1.0/vaults/v1/files/f1/blocks?marker=m0,limit=7", none⟩] ∧
    (GetBlockStorageList sampleVault (some "m0") (some 7) ⟨200, "", [], none⟩).reqs =
      [⟨"GET", "/v1.0/vaults/v1/storage/blocks?marker=m0&limit=7", none⟩] ∧
    (GetBlockList sampleVault (some "m0") none ⟨200, "", [], none⟩).reqs =
      [⟨"GET", "/v1.0/vaults/v1/blocks?marker=m0", none⟩] ∧
    (GetBlockList sampleVault none (some 7) ⟨200, "", [], none⟩).reqs =
      [⟨"GET", "/v1.0/vaults/v1/blocks?limit=7", none⟩] := by
  have h := listing_url_separators sampleVault "f1"
    ⟨"p1", "v1", "f1", "/u", [("0", "b1"), ("100", "b2")]⟩ (by decide) "m0" 7
    ⟨200, "", [], none⟩ ⟨200, "", [], none⟩
  refine ⟨?_, ?_, ?_, ?_, ?_⟩
  · rw [h.1]; decide
  · rw [h.2.1]; decide
  · rw [h.2.2.1]; decide
  · rw [h.2.2.2.1]; decide
  · rw [h.2.2.2.2]; decide

/-- Specification-level description of one item's outcome in the batch
deletion: the deletion succeeds exactly when the id is locally known and its
DELETE receives a 204. -/
def deleteOutcome (vault : Vault) (resp : String → StatusResponse) (id : String) : Bool :=
  match vault.blocks.entries.lookup id with
  | none => false
  | some _ => (resp id).status == 204

/-- The requests one item of the batch deletion issues: none when the id is
not locally known (the lookup raises before any request), one DELETE of the
block path otherwise. -/
def blockDeleteRequests (vault : Vault) (id : String) : List Request :=
  match vault.blocks.entries.lookup id with
  | none => []
  | some b => [⟨"DELETE", get_block_path vault.vault_id (pyStr b.block_id), none⟩]

theorem do_delete_block_fst (vault : Vault) (resp : String → StatusResponse) (id : String) :
    (do_delete_block vault resp id).1 = (id, deleteOutcome vault resp id) := by
  unfold do_delete_block deleteOutcome DeleteBlock
  split
  · rfl
  · by_cases h : (resp id).status = 204 <;> simp [h]

theorem do_delete_block_snd (vault : Vault) (resp : String → StatusResponse) (id : String) :
    (do_delete_block vault resp id).2 = blockDeleteRequests vault id := by
  unfold do_delete_block blockDeleteRequests DeleteBlock
  split
  · rfl
  · by_cases h : (resp id).status = 204 <;> simp [h]

/-- C7: `DeleteBlocks` never raises — it returns, in the order of the input
list and with one pair per input id, the pair of each id with the boolean
outcome of its independent deletion attempt (false exactly when the item
failed, because the id is locally unknown or its DELETE did not return
204). -/
theorem delete_blocks_per_item (vault : Vault) (ids : List String)
    (resp : String → StatusResponse) :
    (DeleteBlocks vault ids resp).res =
      .ok (ids.map fun id => (id, deleteOutcome vault resp id)) := by
  unfold DeleteBlocks
  simp [List.map_map, Function.comp, do_delete_block_fst]

/-- C8: the deletion operations never remove the deleted entity's local
shadow — `DeleteBlock`, `DeleteBlocks` and `DeleteFile` leave the vault
untouched (in particular the keys of `vault.blocks` and `vault.files`), and
a successful `DeleteVault` changes only the vault's status field. -/
theorem deletion_preserves_local_model (vault : Vault) (block : Block) (file_id : String)
    (ids : List String) (r : StatusResponse) (rf : String → StatusResponse) :
    (DeleteBlock vault block r).vault = vault ∧
    (DeleteBlocks vault ids rf).vault = vault ∧
    (DeleteFile vault file_id r).vault = vault ∧
    (r.status = 204 → (DeleteVault vault r).vault = { vault with status := "deleted" }) := by
  refine ⟨?_, rfl, ?_, fun h => ?_⟩
  · unfold DeleteBlock; split <;> rfl
  · unfold DeleteFile; split <;> rfl
  · simp [DeleteVault, h]

theorem deletion_preserves_local_model_witness :
    (DeleteBlock sampleVault ⟨"p1", "v1", some "b1", none, "metadata"⟩ ⟨204, ""⟩).vault =
      sampleVault ∧
    (DeleteBlocks sampleVault ["b1"] (fun _ => ⟨204, ""⟩)).vault = sampleVault ∧
    (DeleteFile sampleVault "f1" ⟨204, ""⟩).vault = sampleVault ∧
    (DeleteVault sampleVault ⟨204, ""⟩).vault = { sampleVault with status := "deleted" } := by
  have h := deletion_preserves_local_model sampleVault
    ⟨"p1", "v1", some "b1", none, "metadata"⟩ "f1" ["b1"] ⟨204, ""⟩ (fun _ => ⟨204, ""⟩)
  exact ⟨h.1, h.2.1, h.2.2.1, h.2.2.2 rfl⟩

/-- C9: an id of the batch-deletion input that is not a key of
`vault.blocks` contributes the pair `(id, false)` to the result and no HTTP
request, while the remaining ids are still processed (the result pairs and
the issued requests are exactly the per-item ones, in input order). -/
theorem delete_blocks_missing_id (vault : Vault) (ids : List String)
    (resp : String → StatusResponse) (id : String)
    (hmem : id ∈ ids) (habs : vault.blocks.entries.lookup id = none) :
    (id, false) ∈ (ids.map fun i => (i, deleteOutcome vault resp i)) ∧
    (DeleteBlocks vault ids resp).res =
      .ok (ids.map fun i => (i, deleteOutcome vault resp i)) ∧
    (DeleteBlocks vault ids resp).reqs = (ids.map (blockDeleteRequests vault)).flatten ∧
    blockDeleteRequests vault id = [] := by
  refine ⟨List.mem_map.mpr ⟨id, hmem, by simp [deleteOutcome, habs]⟩, ?_, ?_, ?_⟩
  · unfold DeleteBlocks
    simp [List.map_map, Function.comp, do_delete_block_fst]
  · unfold DeleteBlocks
    simp [List.map_map, Function.comp_def, do_delete_block_snd]
  · simp [blockDeleteRequests, habs]

theorem delete_blocks_missing_id_witness :
    ("bX", false) ∈ (["b1", "bX"].map fun i =>
      (i, deleteOutcome sampleVault (fun _ => ⟨204, ""⟩) i)) ∧
    (DeleteBlocks sampleVault ["b1", "bX"] (fun _ => ⟨204, ""⟩)).res =
      .ok (["b1", "bX"].map fun i => (i, deleteOutcome sampleVault (fun _ => ⟨204, ""⟩) i)) ∧
    (DeleteBlocks sampleVault ["b1", "bX"] (fun _ => ⟨204, ""⟩)).reqs =
      (["b1", "bX"].map (blockDeleteRequests sampleVault)).flatten ∧
    blockDeleteRequests sampleVault "bX" = [] := by
  exact delete_blocks_missing_id sampleVault ["b1", "bX"] (fun _ => ⟨204, ""⟩) "bX"
    (by decide) (by decide)

/-- C10: `VaultExists` also accepts a bare vault-id string; in that case no
entity state is written (the target comes back unchanged), and it returns
true exactly on a 204 and false exactly on a 404. -/
theorem vault_exists_string_argument (s : String) (r : StatusResponse) :
    (VaultExists (.inr s) r).2.1 = .inr s ∧
    (r.status = 204 → (VaultExists (.inr s) r).1 = .ok true) ∧
    (r.status = 404 → (VaultExists (.inr s) r).1 = .ok false) ∧
    ((VaultExists (.inr s) r).1 = .ok true → r.status = 204) ∧
    ((VaultExists (.inr s) r).1 = .ok false → r.status = 404) := by
  by_cases h204 : r.status = 204
  · simp [VaultExists, h204]
  · by_cases h404 : r.status = 404 <;> simp [VaultExists, h204, h404]

theorem vault_exists_string_argument_witness :
    (VaultExists (.inr "v9") ⟨204, ""⟩).2.1 = .inr "v9" ∧
    (VaultExists (.inr "v9") ⟨204, ""⟩).1 = .ok true ∧
    (VaultExists (.inr "v9") ⟨404, ""⟩).1 = .ok false := by
  have h := vault_exists_string_argument "v9" ⟨204, ""⟩
  have h' := vault_exists_string_argument "v9" ⟨404, ""⟩
  exact ⟨h.1, h.2.1 rfl, h'.2.2.1 rfl⟩

end Deuce
